import Mathlib

/-!
Shallow embedding of the GATT server event dispatcher of the `bluedroid`
crate (files `src/gatt_server/gatts_event_handler.rs` and
`src/gatt_server/custom_attributes.rs`).

The embedding models the attribute tree (profiles, services,
characteristics, descriptors) with only the fields the event handlers
touch, and models each event-handler arm as a pure function from the
current state and the event parameters to the updated state together with
the list of observable actions it performs (callback invocations, calls
into the vendor stack, log lines).  A Rust `panic!` / `expect` / slice
out-of-bounds is modelled by the handler returning `none`.

Application callbacks are modelled by their observable behaviour at the
event under consideration: a read callback is represented by the byte
vector it returns, and a write callback by a flag saying it is present
(its invocation is recorded as an `Action`).
-/

namespace Bluedroid

/-- Byte vectors (`Vec<u8>` in the source) are lists of naturals. -/
abbrev Bytes := List Nat

/-- The `esp_gatt_status_t_ESP_GATT_OK` status code. -/
def ESP_GATT_OK : Nat := 0

/-- The `AttributeControl` enum from `utilities`: either the stack
auto-responds from a stored value, or an application read callback
supplies the value.  The callback of `responseByApp` is represented by
the bytes it returns when invoked. -/
inductive AttributeControl where
  | automaticResponse (value : Bytes)
  | responseByApp (onRead : Bytes)
  deriving DecidableEq

/-- The subset of `CharacteristicProperties` the event handlers read. -/
structure CharacteristicProperties where
  notify : Bool
  indicate : Bool
  deriving DecidableEq

/-- A descriptor record: UUID (as a natural number), the handle assigned
by the stack during registration, and its control mode (the CCCD built by
`Descriptor::cccd` carries an application read callback). -/
structure Descriptor where
  uuid : Nat
  attribute_handle : Option Nat
  control : AttributeControl
  deriving DecidableEq

/-- A characteristic record with the fields used by the event handlers. -/
structure Characteristic where
  uuid : Nat
  attribute_handle : Option Nat
  properties : CharacteristicProperties
  internal_value : Bytes
  control : AttributeControl
  write_callback : Bool
  descriptors : List Descriptor
  deriving DecidableEq

/-- A service record: stack-assigned service handle and its characteristics. -/
structure Service where
  handle : Option Nat
  characteristics : List Characteristic
  deriving DecidableEq

/-- A profile record: application id, stack-assigned interface, services. -/
structure Profile where
  identifier : Nat
  interface : Option Nat
  services : List Service
  deriving DecidableEq

/-- Observable actions of the event handlers: application-callback
invocations (tagged with the owning attribute's UUID), calls into the
vendor stack, and log lines. `sendIndicate` records the arguments of
`esp_ble_gatts_send_indicate`, whose final Boolean is the stack's
`need_confirm` flag (`true` requests an indication with confirmation,
`false` a notification). -/
inductive Action where
  | invokeWrite (uuid : Nat) (payload : Bytes)
  | invokeRead (uuid : Nat)
  | sendResponse (conn_id trans_id status handle len : Nat) (value : List Nat)
  | sendIndicate (conn_id attr_handle len : Nat) (value : Bytes) (need_confirm : Bool)
  | setDeviceName
  | configAdvData
  | startAdvertising
  | logDebug
  | logInfo
  | logWarn
  deriving DecidableEq

/-- The response-buffer construction shared by the read and write arms:

    let mut response = [0u8; 600];
    response[..value.len()].copy_from_slice(&value);

Slicing `response[..value.len()]` panics when `value.len() > 600`
(range end out of bounds); otherwise the buffer holds the value followed
by zeros.  The panic is modelled as `none`. -/
def mkResponse (value : Bytes) : Option (List Nat) :=
  if value.length ≤ 600 then some (value ++ List.replicate (600 - value.length) 0) else none

/-- Parameters of a `WRITE_EVT` (`param.write`) used by the handler. -/
structure WriteParam where
  handle : Nat
  conn_id : Nat
  trans_id : Nat
  need_rsp : Bool
  value : Bytes
  deriving DecidableEq

/-- One iteration of the characteristic loop of the `WRITE_EVT` arm of
`Profile::gatts_event_handler`.  Returns the actions performed at this
characteristic and whether the handler executed `return` (`none` models a
panic in the response-buffer copy). -/
def writeCharStep (p : WriteParam) (c : Characteristic) : Option (List Action × Bool) :=
  if c.attribute_handle = some p.handle then
    if c.write_callback then
      match p.need_rsp, c.control with
      | true, AttributeControl.responseByApp onRead =>
        match mkResponse onRead with
        | some buf =>
          some ([Action.logDebug, Action.invokeWrite c.uuid p.value, Action.invokeRead c.uuid,
                 Action.sendResponse p.conn_id p.trans_id ESP_GATT_OK p.handle
                   (onRead.length % 65536) buf], true)
        | none => none
      | _, _ => some ([Action.logDebug, Action.invokeWrite c.uuid p.value], true)
    else some ([Action.logDebug], false)
  else some ([], false)

/-- The characteristic scan of the `WRITE_EVT` arm over a list of
characteristics (the source's nested service/characteristic loops,
flattened; nothing happens between services, so flattening preserves the
semantics). -/
def writeScan (p : WriteParam) : List Characteristic → Option (List Action)
  | [] => some []
  | c :: rest =>
    match writeCharStep p c with
    | none => none
    | some (acts, true) => some acts
    | some (acts, false) =>
      match writeScan p rest with
      | none => none
      | some acts2 => some (acts ++ acts2)

/-- All characteristics of a profile in service order (the iteration
order of the nested loops in the read and write arms). -/
def profileChars (prof : Profile) : List Characteristic :=
  prof.services.flatMap (fun s => s.characteristics)

/-- The `WRITE_EVT` arm of `Profile::gatts_event_handler`. -/
def profile_write_evt (prof : Profile) (p : WriteParam) : Option (List Action) :=
  writeScan p (profileChars prof)

/-- Parameters of a `READ_EVT` (`param.read`) used by the handler. -/
structure ReadParam where
  handle : Nat
  conn_id : Nat
  trans_id : Nat
  deriving DecidableEq

/-- One iteration of the characteristic loop of the `READ_EVT` arm of
`Profile::gatts_event_handler`.  When the characteristic's handle does
not match, the source scans the characteristic's descriptors and, for a
matching descriptor, only emits a debug log line — it does not invoke the
descriptor's read callback and does not send a response. -/
def readCharStep (p : ReadParam) (c : Characteristic) : Option (List Action × Bool) :=
  if c.attribute_handle = some p.handle then
    match c.control with
    | AttributeControl.responseByApp onRead =>
      match mkResponse onRead with
      | some buf =>
        some ([Action.logDebug, Action.invokeRead c.uuid,
               Action.sendResponse p.conn_id p.trans_id ESP_GATT_OK p.handle
                 (onRead.length % 65536) buf], true)
      | none => none
    | AttributeControl.automaticResponse _ => some ([Action.logDebug], false)
  else
    some ((c.descriptors.filter (fun d => d.attribute_handle == some p.handle)).map
      (fun _ => Action.logDebug), false)

/-- The characteristic scan of the `READ_EVT` arm (flattened as in
`writeScan`). -/
def readScan (p : ReadParam) : List Characteristic → Option (List Action)
  | [] => some []
  | c :: rest =>
    match readCharStep p c with
    | none => none
    | some (acts, true) => some acts
    | some (acts, false) =>
      match readScan p rest with
      | none => none
      | some acts2 => some (acts ++ acts2)

/-- The `READ_EVT` arm of `Profile::gatts_event_handler`. -/
def profile_read_evt (prof : Profile) (p : ReadParam) : Option (List Action) :=
  readScan p (profileChars prof)

/-- Parameters of an `ADD_CHAR_DESCR_EVT` (`param.add_char_descr`). -/
structure AddCharDescrParam where
  service_handle : Nat
  descr_uuid : Nat
  status : Nat
  attr_handle : Nat
  deriving DecidableEq

/-- The mutable lookup
`service.characteristics.iter_mut().flat_map(|c| c.descriptors.iter_mut()).find(|d| d.uuid == param.descr_uuid)`
restricted to a single descriptor list: assign the handle to the first
descriptor with the given UUID; `none` when there is no match. -/
def setFirstDescrHandle (u h : Nat) : List Descriptor → Option (List Descriptor)
  | [] => none
  | d :: rest =>
    if d.uuid = u then some ({ d with attribute_handle := some h } :: rest)
    else (setFirstDescrHandle u h rest).map (fun ds => d :: ds)

/-- The same lookup lifted over the characteristic list of a service: the
first descriptor with the given UUID in the flattened descriptor order
receives the handle. -/
def setFirstDescrInChars (u h : Nat) : List Characteristic → Option (List Characteristic)
  | [] => none
  | c :: rest =>
    match setFirstDescrHandle u h c.descriptors with
    | some ds => some ({ c with descriptors := ds } :: rest)
    | none => (setFirstDescrInChars u h rest).map (fun cs => c :: cs)

/-- The service loop of the `ADD_CHAR_DESCR_EVT` arm: locate the first
service with the stack-supplied `service_handle`; inside it, look up the
descriptor by UUID (flattened across all characteristics) with
`.expect(...)` — a failed lookup panics (`none`) regardless of the event
status, because the source performs the lookup before the status check;
on non-OK status only a warning is logged and nothing is bound; on OK
status the handle is stored on the descriptor found.  A missing service
logs a warning. -/
def addDescrServices (p : AddCharDescrParam) : List Service → Option (List Service × List Action)
  | [] => some ([], [Action.logWarn])
  | s :: rest =>
    if s.handle = some p.service_handle then
      match setFirstDescrInChars p.descr_uuid p.attr_handle s.characteristics with
      | none => none
      | some chars2 =>
        if p.status = ESP_GATT_OK then
          some ({ s with characteristics := chars2 } :: rest, [Action.logInfo])
        else
          some (s :: rest, [Action.logWarn])
    else
      (addDescrServices p rest).map (fun r => (s :: r.1, r.2))

/-- The `ADD_CHAR_DESCR_EVT` arm of `Profile::gatts_event_handler`. -/
def profile_add_char_descr_evt (prof : Profile) (p : AddCharDescrParam) :
    Option (Profile × List Action) :=
  (addDescrServices p prof.services).map (fun r => ({ prof with services := r.1 }, r.2))

/-- The `(uuid, attribute_handle)` pairs of the descriptors of one
characteristic. -/
def charPairs (c : Characteristic) : List (Nat × Option Nat) :=
  c.descriptors.map (fun d => (d.uuid, d.attribute_handle))

/-- The `(uuid, attribute_handle)` pairs of all descriptors of a service,
flattened across its characteristics. -/
def servicePairs (s : Service) : List (Nat × Option Nat) :=
  s.characteristics.flatMap charPairs

/-- The `(uuid, attribute_handle)` pairs of all descriptors of a profile,
in the flattened tree order. -/
def profileDescrPairs (prof : Profile) : List (Nat × Option Nat) :=
  prof.services.flatMap servicePairs

/-- The descriptor `(uuid, attribute_handle)` pairs whose UUID differs
from `u`. -/
def descrPairsOther (u : Nat) (l : List (Nat × Option Nat)) : List (Nat × Option Nat) :=
  l.filter (fun pr => pr.1 != u)

/-- The state of the `GattServer` singleton used by the server-level
event arms: the advertisement-configured flag, the profiles, and the
identifiers of the active connections (`connection.id()`). -/
structure ServerState where
  advertisement_configured : Bool
  profiles : List Profile
  active_connections : List Nat
  deriving DecidableEq

/-- Parameters of a `SET_ATTR_VAL_EVT` (`param.set_attr_val`). -/
structure SetAttrValParam where
  srvc_handle : Nat
  attr_handle : Nat
  deriving DecidableEq

/-- The `SET_ATTR_VAL_EVT` arm of `GattServer::gatts_event_handler`:
find the profile whose interface is `gatts_if`, then the service with the
event's service handle, then the characteristic with the event's
attribute handle.  With `properties.indicate` set the source calls
`esp_ble_gatts_send_indicate(.., false)` for every active connection;
otherwise, with `properties.notify` set, it calls
`esp_ble_gatts_send_indicate(.., true)` — the final argument is the
stack's `need_confirm` flag. -/
def server_set_attr_val_evt (st : ServerState) (gatts_if : Nat) (p : SetAttrValParam) :
    List Action :=
  match (st.profiles.find? (fun prof => prof.interface == some gatts_if)).bind
      (fun prof => prof.services.find? (fun s => s.handle == some p.srvc_handle)) with
  | none => [Action.logWarn]
  | some svc =>
    match svc.characteristics.find? (fun c => c.attribute_handle == some p.attr_handle) with
    | none => [Action.logWarn]
    | some c =>
      Action.logDebug ::
        (if c.properties.indicate then
          st.active_connections.map (fun conn =>
            Action.sendIndicate conn p.attr_handle (c.internal_value.length % 65536)
              c.internal_value false)
        else if c.properties.notify then
          st.active_connections.map (fun conn =>
            Action.sendIndicate conn p.attr_handle (c.internal_value.length % 65536)
              c.internal_value true)
        else [])

/-- The profile dispatch loop at the end of
`GattServer::gatts_event_handler`: a `WRITE_EVT` reaches the wildcard arm
of the server's match and is then forwarded to every profile whose
interface is `gatts_if`; for each such profile the dispatcher first logs
a debug line (`"Handling event {} on profile {}."`) and then runs the
profile's handler. -/
def serverWriteDispatch (gatts_if : Nat) (p : WriteParam) :
    List Profile → Option (List Action)
  | [] => some []
  | prof :: rest =>
    if prof.interface = some gatts_if then
      match profile_write_evt prof p with
      | none => none
      | some acts =>
        match serverWriteDispatch gatts_if p rest with
        | none => none
        | some acts2 => some (Action.logDebug :: (acts ++ acts2))
    else
      serverWriteDispatch gatts_if p rest

/-- The full path of a `WRITE_EVT` through
`GattServer::gatts_event_handler`: the server-level match does nothing
for this event kind and the profile dispatch loop runs. -/
def server_write_evt (st : ServerState) (gatts_if : Nat) (p : WriteParam) :
    Option (List Action) :=
  serverWriteDispatch gatts_if p st.profiles

/-- Parameters of a `REG_EVT` (`param.reg`) used by the server arm. -/
structure RegParam where
  status : Nat
  app_id : Nat
  deriving DecidableEq

/-- The mutable lookup
`self.profiles.iter_mut().find(|p| p.identifier == param.app_id)` followed
by `profile.interface = Some(gatts_if)`; `none` models the `.expect(...)`
panic when no profile matches. -/
def setProfileInterface (app_id gatts_if : Nat) : List Profile → Option (List Profile)
  | [] => none
  | prof :: rest =>
    if prof.identifier = app_id then some ({ prof with interface := some gatts_if } :: rest)
    else (setProfileInterface app_id gatts_if rest).map (fun ps => prof :: ps)

/-- The `REG_EVT` arm of `GattServer::gatts_event_handler`: on OK status,
record the interface on the matching profile; if the advertisement is not
yet configured, set the device name, mark the flag, and configure the
advertisement and scan-response data (two `esp_ble_gap_config_adv_data`
calls).  On non-OK status the arm does nothing.  (The profile-level
`REG_EVT` arm only drives service registration and never touches the
advertisement configuration.) -/
def server_reg_evt (st : ServerState) (gatts_if : Nat) (p : RegParam) :
    Option (ServerState × List Action) :=
  if p.status = ESP_GATT_OK then
    match setProfileInterface p.app_id gatts_if st.profiles with
    | none => none
    | some ps =>
      if st.advertisement_configured = false then
        some ({ st with profiles := ps, advertisement_configured := true },
          [Action.logDebug, Action.setDeviceName, Action.configAdvData, Action.configAdvData])
      else
        some ({ st with profiles := ps }, [Action.logDebug])
  else some (st, [])

/-- A sequence of registration events, each with its `gatts_if`, folded
through the `REG_EVT` arm, accumulating the actions. -/
def runRegEvents (st : ServerState) : List (Nat × RegParam) → Option (ServerState × List Action)
  | [] => some (st, [])
  | e :: rest =>
    match server_reg_evt st e.1 e.2 with
    | none => none
    | some (st2, acts) =>
      match runRegEvents st2 rest with
      | none => none
      | some (st3, acts2) => some (st3, acts ++ acts2)

/-- Uppercase hexadecimal digit, as produced by Rust's `{:X}` formatting. -/
def hexDigit (n : Nat) : Char :=
  if n < 10 then Char.ofNat (48 + n) else Char.ofNat (55 + n)

/-- Rust's `{:02X}` formatting of a `u8` value: exactly two uppercase
hexadecimal digits. -/
def hex2 (n : Nat) : String :=
  String.mk [hexDigit (n / 16 % 16), hexDigit (n % 16)]

/-- Rust's `{:04X}` formatting of a `u16` value: exactly four uppercase
hexadecimal digits. -/
def hex4 (n : Nat) : String :=
  String.mk [hexDigit (n / 4096 % 16), hexDigit (n / 256 % 16), hexDigit (n / 16 % 16),
    hexDigit (n % 16)]

/-- The non-volatile-storage key built by the `on_read` closure of
`Descriptor::cccd`:
`format!("{:02X}{:02X}{:02X}{:02X}-{:04X}", param.bda[2], param.bda[3], param.bda[4], param.bda[5], param.handle)`
(the first two address bytes are commented out in the source). -/
def cccd_read_key (bda : List Nat) (handle : Nat) : String :=
  hex2 (bda.getD 2 0) ++ hex2 (bda.getD 3 0) ++ hex2 (bda.getD 4 0) ++ hex2 (bda.getD 5 0)
    ++ "-" ++ hex4 handle

/-- The non-volatile-storage key built by the `on_write` closure of
`Descriptor::cccd`, with the same format string and arguments as the
read closure. -/
def cccd_write_key (bda : List Nat) (handle : Nat) : String :=
  hex2 (bda.getD 2 0) ++ hex2 (bda.getD 3 0) ++ hex2 (bda.getD 4 0) ++ hex2 (bda.getD 5 0)
    ++ "-" ++ hex4 handle

/-- Modelled from the spec: the key format
`format("%02X%02X%02X%02X-%04X", bda[2], bda[3], bda[4], bda[5], attr_handle)`
stated in section 4.5 of the specification. -/
def cccd_key_spec (bda : List Nat) (attr_handle : Nat) : String :=
  hex2 (bda.getD 2 0) ++ hex2 (bda.getD 3 0) ++ hex2 (bda.getD 4 0) ++ hex2 (bda.getD 5 0)
    ++ "-" ++ hex4 attr_handle

/-- A characteristic with a CCCD descriptor that carries an application
read callback (as built by `Descriptor::cccd`), with the descriptor
already registered at attribute handle 43. -/
def cccdChar : Characteristic :=
  { uuid := 100, attribute_handle := some 42,
    properties := { notify := true, indicate := false },
    internal_value := [], control := AttributeControl.automaticResponse [],
    write_callback := false,
    descriptors := [{ uuid := 0x2902, attribute_handle := some 43,
                      control := AttributeControl.responseByApp [1, 0] }] }

/-- A registered profile holding `cccdChar` in a single service. -/
def cccdProfile : Profile :=
  { identifier := 1, interface := some 3,
    services := [{ handle := some 40, characteristics := [cccdChar] }] }

/-- A notify-only characteristic registered at attribute handle 42. -/
def notifyChar : Characteristic :=
  { uuid := 200, attribute_handle := some 42,
    properties := { notify := true, indicate := false },
    internal_value := [1, 2, 3], control := AttributeControl.automaticResponse [1, 2, 3],
    write_callback := false, descriptors := [] }

/-- An indicate-only characteristic registered at attribute handle 42. -/
def indicateChar : Characteristic :=
  { uuid := 201, attribute_handle := some 42,
    properties := { notify := false, indicate := true },
    internal_value := [1, 2, 3], control := AttributeControl.automaticResponse [1, 2, 3],
    write_callback := false, descriptors := [] }

/-- A server with the notify-only characteristic and two active connections. -/
def notifyServer : ServerState :=
  { advertisement_configured := true,
    profiles := [{ identifier := 1, interface := some 3,
                   services := [{ handle := some 40, characteristics := [notifyChar] }] }],
    active_connections := [7, 8] }

/-- A server with the indicate-only characteristic and two active connections. -/
def indicateServer : ServerState :=
  { advertisement_configured := true,
    profiles := [{ identifier := 1, interface := some 3,
                   services := [{ handle := some 40, characteristics := [indicateChar] }] }],
    active_connections := [7, 8] }

/-- A service containing two notify characteristics, each with its own
CCCD (UUID 0x2902), neither descriptor registered yet. -/
def twoCccdProfile : Profile :=
  { identifier := 1, interface := some 3,
    services := [{ handle := some 40, characteristics :=
      [{ uuid := 100, attribute_handle := some 42,
         properties := { notify := true, indicate := false },
         internal_value := [], control := AttributeControl.automaticResponse [],
         write_callback := false,
         descriptors := [{ uuid := 0x2902, attribute_handle := none,
                           control := AttributeControl.responseByApp [0, 0] }] },
       { uuid := 101, attribute_handle := some 44,
         properties := { notify := true, indicate := false },
         internal_value := [], control := AttributeControl.automaticResponse [],
         write_callback := false,
         descriptors := [{ uuid := 0x2902, attribute_handle := none,
                           control := AttributeControl.responseByApp [0, 0] }] }] }] }

/-- The add-descriptor-complete event for the first CCCD (stack handle 43). -/
def addDescrEvt1 : AddCharDescrParam :=
  { service_handle := 40, descr_uuid := 0x2902, status := 0, attr_handle := 43 }

/-- The add-descriptor-complete event for the second CCCD (stack handle 45). -/
def addDescrEvt2 : AddCharDescrParam :=
  { service_handle := 40, descr_uuid := 0x2902, status := 0, attr_handle := 45 }

/-- A writable characteristic at handle 1 with a write callback. -/
def soleChar : Characteristic :=
  { uuid := 9, attribute_handle := some 1,
    properties := { notify := false, indicate := false },
    internal_value := [], control := AttributeControl.automaticResponse [],
    write_callback := true, descriptors := [] }

/-- A profile holding only `soleChar`, used for the write-routing and
unknown-handle scenarios. -/
def soleCharProfile : Profile :=
  { identifier := 1, interface := some 3,
    services := [{ handle := some 40, characteristics := [soleChar] }] }

/-- A write event at handle 99, which no attribute of `soleCharProfile`
occupies. -/
def unknownHandleWrite : WriteParam :=
  { handle := 99, conn_id := 5, trans_id := 6, need_rsp := true, value := [1] }

/-- Actions that the read arm would have to perform to answer a read from
an application callback: the callback invocation and the stack response. -/
def isReadAnswer : Action → Bool
  | Action.invokeRead _ => true
  | Action.sendResponse _ _ _ _ _ _ => true
  | _ => false

/-- Write-callback invocation actions. -/
def isInvokeWrite : Action → Bool
  | Action.invokeWrite _ _ => true
  | _ => false

/-- A write event at handle 1, the handle of `soleChar`, with no response
requested. -/
def knownHandleWrite : WriteParam :=
  { handle := 1, conn_id := 5, trans_id := 6, need_rsp := false,
    value := [222, 173, 190, 239] }

/-- The bytes returned by the application read callback in the padding
scenario. -/
def paddingValue : Bytes := [72, 105]

/-- A characteristic at handle 2 whose control mode is
application-callback, returning `paddingValue`. -/
def appReadChar : Characteristic :=
  { uuid := 10, attribute_handle := some 2,
    properties := { notify := false, indicate := false },
    internal_value := [], control := AttributeControl.responseByApp paddingValue,
    write_callback := false, descriptors := [] }

/-- A profile holding only `appReadChar`. -/
def appReadProfile : Profile :=
  { identifier := 1, interface := some 3,
    services := [{ handle := some 40, characteristics := [appReadChar] }] }

/-- A read event at handle 2. -/
def appReadEvt : ReadParam := { handle := 2, conn_id := 5, trans_id := 6 }

/-- The actions of the read arm on `appReadProfile` at handle 2. -/
def appReadActs : List Action :=
  [Action.logDebug, Action.invokeRead 10,
   Action.sendResponse 5 6 ESP_GATT_OK 2 2 (paddingValue ++ List.replicate 598 0)]

/-- A characteristic at handle 2 with a write callback, whose application
read callback returns 601 bytes — one more than the response buffer
holds. -/
def bigRspChar : Characteristic :=
  { uuid := 11, attribute_handle := some 2,
    properties := { notify := false, indicate := false },
    internal_value := [], control := AttributeControl.responseByApp (List.replicate 601 1),
    write_callback := true, descriptors := [] }

/-- A profile holding only `bigRspChar`. -/
def bigRspProfile : Profile :=
  { identifier := 1, interface := some 3,
    services := [{ handle := some 40, characteristics := [bigRspChar] }] }

/-- A response-requesting write event at handle 2. -/
def bigRspWrite : WriteParam :=
  { handle := 2, conn_id := 5, trans_id := 6, need_rsp := true, value := [1] }

/-- A server holding only `soleCharProfile` on interface 3. -/
def c7Server : ServerState :=
  { advertisement_configured := true, profiles := [soleCharProfile],
    active_connections := [] }

/-- The profile `twoCccdProfile` after the first add-descriptor event
bound handle 43 to the first CCCD. -/
def twoCccdProfileAfter1 : Profile :=
  { identifier := 1, interface := some 3,
    services := [{ handle := some 40, characteristics :=
      [{ uuid := 100, attribute_handle := some 42,
         properties := { notify := true, indicate := false },
         internal_value := [], control := AttributeControl.automaticResponse [],
         write_callback := false,
         descriptors := [{ uuid := 0x2902, attribute_handle := some 43,
                           control := AttributeControl.responseByApp [0, 0] }] },
       { uuid := 101, attribute_handle := some 44,
         properties := { notify := true, indicate := false },
         internal_value := [], control := AttributeControl.automaticResponse [],
         write_callback := false,
         descriptors := [{ uuid := 0x2902, attribute_handle := none,
                           control := AttributeControl.responseByApp [0, 0] }] }] }] }

/-- An initial server state with one unregistered profile and the
advertisement not yet configured. -/
def regState0 : ServerState :=
  { advertisement_configured := false,
    profiles := [{ identifier := 1, interface := none, services := [] }],
    active_connections := [] }

/-- A first successful registration event on interface 5. -/
def regEvt1 : Nat × RegParam := (5, { status := 0, app_id := 1 })

/-- A second successful registration event on interface 6. -/
def regEvt2 : Nat × RegParam := (6, { status := 0, app_id := 1 })

/-- The server state after `regEvt1` and `regEvt2`. -/
def regFinal : ServerState :=
  { advertisement_configured := true,
    profiles := [{ identifier := 1, interface := some 6, services := [] }],
    active_connections := [] }

/-- The actions emitted across `regEvt1` and `regEvt2`. -/
def regActs : List Action :=
  [Action.logDebug, Action.setDeviceName, Action.configAdvData, Action.configAdvData,
   Action.logDebug]

/-- C1: the claim states that a read request at the assigned handle of a
descriptor with application-callback control invokes the descriptor's
read callback and sends an OK response.  The code does not: at a
descriptor handle the read arm only emits a debug log line; it never
invokes the descriptor's callback and never sends a response.  Evaluated
at a CCCD with an application read callback registered at handle 43. -/
theorem c1_descriptor_read_ignored :
    (∃ d ∈ cccdChar.descriptors, d.attribute_handle = some 43 ∧
        d.control = AttributeControl.responseByApp [1, 0]) ∧
    profile_read_evt cccdProfile { handle := 43, conn_id := 0, trans_id := 0 }
      = some [Action.logDebug] ∧
    (profile_read_evt cccdProfile { handle := 43, conn_id := 0, trans_id := 0 }).map
      (fun acts => acts.filter isReadAnswer) = some [] := by decide

/-- C2: the claim states that a set-attribute-value event on a
notify-only characteristic with K active connections emits exactly K
frames with `need_confirm = false` and none with `need_confirm = true`.
The code does the opposite: with two active connections it emits two
`esp_ble_gatts_send_indicate` calls whose `need_confirm` flag is `true`
(confirmation-required indicate frames) and none with `false`. -/
theorem c2_notify_sends_confirmable_frames :
    server_set_attr_val_evt notifyServer 3 { srvc_handle := 40, attr_handle := 42 }
      = [Action.logDebug,
         Action.sendIndicate 7 42 3 [1, 2, 3] true,
         Action.sendIndicate 8 42 3 [1, 2, 3] true] := by decide

/-- C3: the claim states that a set-attribute-value event on a
characteristic with the indicate property sends, per active connection,
a frame with `need_confirm = true`.  The code passes `false`: with two
active connections it emits two `esp_ble_gatts_send_indicate` calls whose
`need_confirm` flag is `false` (unconfirmed notify frames). -/
theorem c3_indicate_sends_unconfirmed_frames :
    server_set_attr_val_evt indicateServer 3 { srvc_handle := 40, attr_handle := 42 }
      = [Action.logDebug,
         Action.sendIndicate 7 42 3 [1, 2, 3] false,
         Action.sendIndicate 8 42 3 [1, 2, 3] false] := by decide

/-- C4, counterexample: with two notify characteristics in one service,
each owning a CCCD (UUID 0x2902), the first add-descriptor-complete
event binds handle 43 to the first CCCD, and the second event — meant
for the second CCCD — rebinds the *first* CCCD to handle 45, changing an
already-assigned handle and leaving the second CCCD unregistered: the
lookup is by UUID flattened across all characteristics of the service
and does not disambiguate by parent characteristic. -/
theorem c4_cccd_handle_overwritten :
    (profile_add_char_descr_evt twoCccdProfile addDescrEvt1).map
        (fun r => profileDescrPairs r.1) = some [(0x2902, some 43), (0x2902, none)] ∧
    ((profile_add_char_descr_evt twoCccdProfile addDescrEvt1).bind
        (fun r => profile_add_char_descr_evt r.1 addDescrEvt2)).map
        (fun r => profileDescrPairs r.1) = some [(0x2902, some 45), (0x2902, none)] := by decide

/-- C7, counterexample: the claim states that a write event whose handle
matches no attribute logs a warning.  The code drops the event silently:
at handle 99, which no attribute of the profile occupies, the write arm
performs no action at all — in particular no `logWarn`. -/
theorem c7_no_warning_logged :
    (∀ c ∈ profileChars soleCharProfile, c.attribute_handle ≠ some unknownHandleWrite.handle) ∧
    profile_write_evt soleCharProfile unknownHandleWrite = some [] := by decide

/-- C8: the CCCD read closure and write closure build the same
non-volatile-storage key, the key agrees with the format stated in the
spec (bytes 2..5 of the address, a dash, the handle as four hex digits),
and the key does not depend on the first two address bytes. -/
theorem c8_cccd_key_format (b0 b1 b2 b3 b4 b5 b0' b1' h : Nat) :
    cccd_read_key [b0, b1, b2, b3, b4, b5] h = cccd_write_key [b0, b1, b2, b3, b4, b5] h ∧
    cccd_read_key [b0, b1, b2, b3, b4, b5] h = cccd_key_spec [b0, b1, b2, b3, b4, b5] h ∧
    cccd_read_key [b0, b1, b2, b3, b4, b5] h = cccd_read_key [b0', b1', b2, b3, b4, b5] h :=
  ⟨rfl, rfl, rfl⟩

/-- A characteristic whose step yields no actions and no early return is
transparent to the write scan. -/
theorem writeScan_cons_skip (p : WriteParam) (c : Characteristic) (rest : List Characteristic)
    (hstep : writeCharStep p c = some ([], false)) :
    writeScan p (c :: rest) = writeScan p rest := by
  conv_lhs => unfold writeScan
  rw [hstep]
  cases hr : writeScan p rest with
  | none => rfl
  | some a2 => rfl

/-- Characteristics whose handle does not match the event contribute no
actions to the write scan and do not stop it. -/
theorem writeScan_append_of_no_match (p : WriteParam) (l1 rest : List Characteristic)
    (h : ∀ c ∈ l1, c.attribute_handle ≠ some p.handle) :
    writeScan p (l1 ++ rest) = writeScan p rest := by
  induction l1 with
  | nil => rfl
  | cons c l ih =>
    have hc : c.attribute_handle ≠ some p.handle := h c (List.mem_cons_self c l)
    have hl : ∀ c1 ∈ l, c1.attribute_handle ≠ some p.handle :=
      fun c1 hm => h c1 (List.mem_cons_of_mem c hm)
    have hstep : writeCharStep p c = some ([], false) := by
      unfold writeCharStep
      rw [if_neg hc]
    rw [List.cons_append, writeScan_cons_skip p c (l ++ rest) hstep, ih hl]

/-- At the first characteristic whose handle matches a write event and
which owns a write callback, the write arm stops and its actions contain
exactly one write-callback invocation, carrying the characteristic's
UUID and the unmodified payload bytes. -/
theorem writeCharStep_match_spec (p : WriteParam) (c : Characteristic)
    (hc : c.attribute_handle = some p.handle) (hcb : c.write_callback = true)
    (r : List Action × Bool) (hr : writeCharStep p c = some r) :
    r.2 = true ∧ r.1.filter isInvokeWrite = [Action.invokeWrite c.uuid p.value] := by
  unfold writeCharStep at hr
  rw [if_pos hc, hcb] at hr
  simp only [if_true] at hr
  cases hn : p.need_rsp <;> rw [hn] at hr
  · simp only [] at hr
    cases hr
    exact ⟨rfl, by simp [List.filter, isInvokeWrite]⟩
  · cases hctl : c.control <;> rw [hctl] at hr
    · simp only [] at hr
      cases hr
      exact ⟨rfl, by simp [List.filter, isInvokeWrite]⟩
    · rename_i onRead
      simp only [] at hr
      cases hm : mkResponse onRead <;> rw [hm] at hr
      · cases hr
      · simp only [] at hr
        cases hr
        exact ⟨rfl, by simp [List.filter, isInvokeWrite]⟩

/-- C5: a write event at the assigned handle of a characteristic that
owns a write callback — with no earlier characteristic occupying the same
handle — invokes exactly that characteristic's write callback, exactly
once, with payload bytes identical to those of the event. -/
theorem c5_write_round_trip (prof : Profile) (p : WriteParam)
    (l1 l2 : List Characteristic) (c : Characteristic) (acts : List Action)
    (hsplit : profileChars prof = l1 ++ c :: l2)
    (hbefore : ∀ c1 ∈ l1, c1.attribute_handle ≠ some p.handle)
    (hc : c.attribute_handle = some p.handle)
    (hcb : c.write_callback = true)
    (hrun : profile_write_evt prof p = some acts) :
    acts.filter isInvokeWrite = [Action.invokeWrite c.uuid p.value] := by
  unfold profile_write_evt at hrun
  rw [hsplit, writeScan_append_of_no_match p l1 _ hbefore] at hrun
  unfold writeScan at hrun
  cases hstep : writeCharStep p c with
  | none => rw [hstep] at hrun; cases hrun
  | some r =>
    obtain ⟨hflag, hfilter⟩ := writeCharStep_match_spec p c hc hcb r hstep
    obtain ⟨acts0, flag⟩ := r
    rw [hstep] at hrun
    cases flag with
    | false => cases hflag
    | true =>
      simp only [] at hrun
      cases hrun
      exact hfilter

/-- C5, witness: in `soleCharProfile`, a write of `[0xDE, 0xAD, 0xBE,
0xEF]` at handle 1 invokes exactly the write callback of `soleChar` with
that payload. -/
theorem c5_write_round_trip_witness :
    ([Action.logDebug, Action.invokeWrite 9 [222, 173, 190, 239]].filter isInvokeWrite)
      = [Action.invokeWrite soleChar.uuid knownHandleWrite.value] :=
  c5_write_round_trip soleCharProfile knownHandleWrite [] [] soleChar
    [Action.logDebug, Action.invokeWrite 9 [222, 173, 190, 239]]
    (by decide) (by decide) (by decide) (by decide) (by decide)

/-- A profile none of whose characteristics occupies the write event's
handle contributes no actions to the write arm and does not panic. -/
theorem profile_write_evt_no_match (prof : Profile) (p : WriteParam)
    (h : ∀ c ∈ profileChars prof, c.attribute_handle ≠ some p.handle) :
    profile_write_evt prof p = some [] := by
  unfold profile_write_evt
  have h2 := writeScan_append_of_no_match p (profileChars prof) [] h
  rw [List.append_nil] at h2
  rw [h2]
  rfl

/-- Over any profile list in which no characteristic occupies the write
event's handle, the dispatch loop succeeds and emits only the
per-profile debug log lines. -/
theorem serverWriteDispatch_no_match (gatts_if : Nat) (p : WriteParam)
    (profs : List Profile)
    (h : ∀ prof ∈ profs, ∀ c ∈ profileChars prof, c.attribute_handle ≠ some p.handle) :
    ∃ acts, serverWriteDispatch gatts_if p profs = some acts ∧
      ∀ a ∈ acts, a = Action.logDebug := by
  induction profs with
  | nil => exact ⟨[], rfl, by simp⟩
  | cons prof rest ih =>
    obtain ⟨acts2, hrest, hall⟩ := ih (fun pr hm => h pr (List.mem_cons_of_mem prof hm))
    have hprof : profile_write_evt prof p = some [] :=
      profile_write_evt_no_match prof p (h prof (List.mem_cons_self prof rest))
    by_cases hif : prof.interface = some gatts_if
    · refine ⟨Action.logDebug :: acts2, ?_, ?_⟩
      · conv_lhs => unfold serverWriteDispatch
        rw [if_pos hif, hprof]
        simp only []
        rw [hrest]
        rfl
      · intro a ha
        rcases List.mem_cons.mp ha with rfl | ha2
        · rfl
        · exact hall a ha2
    · refine ⟨acts2, ?_, hall⟩
      conv_lhs => unfold serverWriteDispatch
      rw [if_neg hif]
      exact hrest

/-- C7, amended: a write event whose handle matches no registered
attribute is dropped without a warning and is never fatal: no read or
write callback is invoked and no response is sent; the only output of
the full dispatch is the server loop's per-profile debug log line — in
particular, no warning is logged. -/
theorem c7_unknown_handle_dropped (st : ServerState) (gatts_if : Nat) (p : WriteParam)
    (h : ∀ prof ∈ st.profiles, ∀ c ∈ profileChars prof, c.attribute_handle ≠ some p.handle) :
    ∃ acts, server_write_evt st gatts_if p = some acts ∧
      ∀ a ∈ acts, a = Action.logDebug :=
  serverWriteDispatch_no_match gatts_if p st.profiles h

/-- C7, amended, witness: the write at handle 99 on a server holding
only `soleCharProfile` succeeds and emits nothing but debug log lines. -/
theorem c7_unknown_handle_dropped_witness :
    ∃ acts, server_write_evt c7Server 3 unknownHandleWrite = some acts ∧
      ∀ a ∈ acts, a = Action.logDebug :=
  c7_unknown_handle_dropped c7Server 3 unknownHandleWrite (by decide)

/-- A characteristic whose step yields actions without an early return
prefixes them to the rest of the read scan. -/
theorem readScan_cons_skip (p : ReadParam) (c : Characteristic) (rest : List Characteristic)
    (dbg : List Action) (hstep : readCharStep p c = some (dbg, false)) :
    readScan p (c :: rest) = (readScan p rest).map (fun a2 => dbg ++ a2) := by
  conv_lhs => unfold readScan
  rw [hstep]
  cases hr : readScan p rest with
  | none => rfl
  | some a2 => rfl

/-- Characteristics whose handle does not match a read event contribute
only descriptor debug-log actions and do not stop the scan. -/
theorem readScan_append_of_no_match (p : ReadParam) (l1 rest : List Characteristic)
    (h : ∀ c ∈ l1, c.attribute_handle ≠ some p.handle) :
    ∃ pre, readScan p (l1 ++ rest) = (readScan p rest).map (fun a2 => pre ++ a2) := by
  induction l1 with
  | nil =>
    refine ⟨[], ?_⟩
    rw [List.nil_append]
    cases hr : readScan p rest with
    | none => rfl
    | some a2 => simp
  | cons c l ih =>
    have hc : c.attribute_handle ≠ some p.handle := h c (List.mem_cons_self c l)
    obtain ⟨pre, hpre⟩ := ih (fun c1 hm => h c1 (List.mem_cons_of_mem c hm))
    have hstep : readCharStep p c = some ((c.descriptors.filter
        (fun d => d.attribute_handle == some p.handle)).map (fun _ => Action.logDebug), false) := by
      unfold readCharStep
      rw [if_neg hc]
    refine ⟨(c.descriptors.filter (fun d => d.attribute_handle == some p.handle)).map
      (fun _ => Action.logDebug) ++ pre, ?_⟩
    rw [List.cons_append, readScan_cons_skip p c (l ++ rest) _ hstep, hpre]
    cases hr : readScan p rest with
    | none => rfl
    | some a2 => simp

/-- At a characteristic whose handle matches a read event and whose
control mode is application-callback, the read arm either panics in the
response-buffer copy or answers with the callback's bytes and returns. -/
theorem readCharStep_app_of_match (p : ReadParam) (c : Characteristic) (v : Bytes)
    (hc : c.attribute_handle = some p.handle)
    (hctl : c.control = AttributeControl.responseByApp v) :
    readCharStep p c = (mkResponse v).map (fun buf =>
      ([Action.logDebug, Action.invokeRead c.uuid,
        Action.sendResponse p.conn_id p.trans_id ESP_GATT_OK p.handle (v.length % 65536) buf],
       true)) := by
  unfold readCharStep
  rw [if_pos hc, hctl]
  cases hm : mkResponse v with
  | none => simp [hm]
  | some buf => simp [hm]

/-- C6: a read request answered by an application callback returning N
bytes with N ≤ 600 sends a response whose buffer starts with the N
returned bytes, continues with zeros up to the fixed size of 600, and
whose length field equals N. -/
theorem c6_read_padding (prof : Profile) (p : ReadParam)
    (l1 l2 : List Characteristic) (c : Characteristic) (v : Bytes) (acts : List Action)
    (hsplit : profileChars prof = l1 ++ c :: l2)
    (hbefore : ∀ c1 ∈ l1, c1.attribute_handle ≠ some p.handle)
    (hc : c.attribute_handle = some p.handle)
    (hctl : c.control = AttributeControl.responseByApp v)
    (hlen : v.length ≤ 600)
    (hrun : profile_read_evt prof p = some acts) :
    Action.sendResponse p.conn_id p.trans_id ESP_GATT_OK p.handle v.length
        (v ++ List.replicate (600 - v.length) 0) ∈ acts ∧
    (v ++ List.replicate (600 - v.length) 0).length = 600 ∧
    (v ++ List.replicate (600 - v.length) 0).take v.length = v ∧
    (v ++ List.replicate (600 - v.length) 0).drop v.length
      = List.replicate (600 - v.length) 0 := by
  have hmod : v.length % 65536 = v.length :=
    Nat.mod_eq_of_lt (lt_of_le_of_lt hlen (by norm_num))
  have hmk : mkResponse v = some (v ++ List.replicate (600 - v.length) 0) := by
    unfold mkResponse
    rw [if_pos hlen]
  obtain ⟨pre, hpre⟩ := readScan_append_of_no_match p l1 (c :: l2) hbefore
  unfold profile_read_evt at hrun
  rw [hsplit, hpre] at hrun
  have hscan : readScan p (c :: l2)
      = some [Action.logDebug, Action.invokeRead c.uuid,
              Action.sendResponse p.conn_id p.trans_id ESP_GATT_OK p.handle (v.length % 65536)
                (v ++ List.replicate (600 - v.length) 0)] := by
    conv_lhs => unfold readScan
    rw [readCharStep_app_of_match p c v hc hctl, hmk]
    rfl
  rw [hmod] at hscan
  rw [hscan] at hrun
  obtain rfl : _ = acts := Option.some.inj hrun
  refine ⟨List.mem_append.mpr (Or.inr (by simp)), ?_, ?_, ?_⟩
  · rw [List.length_append, List.length_replicate]
    omega
  · exact List.take_left v _
  · exact List.drop_left v _

/-- C6, witness: a callback returning the 2 bytes `paddingValue` leads to
a response whose buffer is those bytes followed by 598 zeros and whose
length field is 2. -/
theorem c6_read_padding_witness :
    Action.sendResponse 5 6 ESP_GATT_OK 2 paddingValue.length
        (paddingValue ++ List.replicate (600 - paddingValue.length) 0) ∈ appReadActs ∧
    (paddingValue ++ List.replicate (600 - paddingValue.length) 0).length = 600 ∧
    (paddingValue ++ List.replicate (600 - paddingValue.length) 0).take paddingValue.length
      = paddingValue ∧
    (paddingValue ++ List.replicate (600 - paddingValue.length) 0).drop paddingValue.length
      = List.replicate (600 - paddingValue.length) 0 :=
  c6_read_padding appReadProfile appReadEvt [] [] appReadChar paddingValue appReadActs
    (by decide) (by decide) (by decide) (by decide) (by decide)
    (by set_option maxRecDepth 100000 in decide)

/-- At a matching characteristic that owns a write callback, a
response-requesting write with application-callback control either
panics in the response-buffer copy or answers and returns. -/
theorem writeCharStep_rsp_of_match (p : WriteParam) (c : Characteristic) (v : Bytes)
    (hc : c.attribute_handle = some p.handle) (hcb : c.write_callback = true)
    (hrsp : p.need_rsp = true) (hctl : c.control = AttributeControl.responseByApp v) :
    writeCharStep p c = (mkResponse v).map (fun buf =>
      ([Action.logDebug, Action.invokeWrite c.uuid p.value, Action.invokeRead c.uuid,
        Action.sendResponse p.conn_id p.trans_id ESP_GATT_OK p.handle (v.length % 65536) buf],
       true)) := by
  unfold writeCharStep
  rw [if_pos hc, hcb, hrsp, hctl]
  simp only [if_true]
  cases hm : mkResponse v with
  | none => simp [hm]
  | some buf => simp [hm]

/-- C10: both copies of the application read callback's bytes into the
fixed 600-byte response buffer — the one in the read-request arm and the
one in the write-response path — panic exactly when the callback returns
more than 600 bytes, and are well-defined otherwise. -/
theorem c10_copy_panics_iff_oversize (prof : Profile) (pr : ReadParam) (pw : WriteParam)
    (l1 l2 : List Characteristic) (c : Characteristic) (v : Bytes)
    (hsplit : profileChars prof = l1 ++ c :: l2)
    (hbefore : ∀ c1 ∈ l1, c1.attribute_handle ≠ some pr.handle)
    (hc : c.attribute_handle = some pr.handle)
    (hhw : pw.handle = pr.handle)
    (hcb : c.write_callback = true)
    (hrsp : pw.need_rsp = true)
    (hctl : c.control = AttributeControl.responseByApp v) :
    (profile_read_evt prof pr = none ↔ 600 < v.length) ∧
    (profile_write_evt prof pw = none ↔ 600 < v.length) := by
  constructor
  · obtain ⟨pre, hpre⟩ := readScan_append_of_no_match pr l1 (c :: l2) hbefore
    unfold profile_read_evt
    rw [hsplit, hpre]
    by_cases h6 : v.length ≤ 600
    · have hmk : mkResponse v = some (v ++ List.replicate (600 - v.length) 0) := by
        unfold mkResponse
        rw [if_pos h6]
      have hscan : readScan pr (c :: l2)
          = some [Action.logDebug, Action.invokeRead c.uuid,
                  Action.sendResponse pr.conn_id pr.trans_id ESP_GATT_OK pr.handle
                    (v.length % 65536) (v ++ List.replicate (600 - v.length) 0)] := by
        conv_lhs => unfold readScan
        rw [readCharStep_app_of_match pr c v hc hctl, hmk]
        rfl
      rw [hscan]
      exact iff_of_false (by simp) (by omega)
    · have hmk : mkResponse v = none := by
        unfold mkResponse
        rw [if_neg h6]
      have hscan : readScan pr (c :: l2) = none := by
        conv_lhs => unfold readScan
        rw [readCharStep_app_of_match pr c v hc hctl, hmk]
        rfl
      rw [hscan]
      exact iff_of_true rfl (by omega)
  · have hcw : c.attribute_handle = some pw.handle := by
      rw [hhw]
      exact hc
    have hbw : ∀ c1 ∈ l1, c1.attribute_handle ≠ some pw.handle := by
      intro c1 h1
      rw [hhw]
      exact hbefore c1 h1
    unfold profile_write_evt
    rw [hsplit, writeScan_append_of_no_match pw l1 (c :: l2) hbw]
    by_cases h6 : v.length ≤ 600
    · have hmk : mkResponse v = some (v ++ List.replicate (600 - v.length) 0) := by
        unfold mkResponse
        rw [if_pos h6]
      have hscan : writeScan pw (c :: l2)
          = some [Action.logDebug, Action.invokeWrite c.uuid pw.value, Action.invokeRead c.uuid,
                  Action.sendResponse pw.conn_id pw.trans_id ESP_GATT_OK pw.handle
                    (v.length % 65536) (v ++ List.replicate (600 - v.length) 0)] := by
        conv_lhs => unfold writeScan
        rw [writeCharStep_rsp_of_match pw c v hcw hcb hrsp hctl, hmk]
        rfl
      rw [hscan]
      exact iff_of_false (by simp) (by omega)
    · have hmk : mkResponse v = none := by
        unfold mkResponse
        rw [if_neg h6]
      have hscan : writeScan pw (c :: l2) = none := by
        conv_lhs => unfold writeScan
        rw [writeCharStep_rsp_of_match pw c v hcw hcb hrsp hctl, hmk]
        rfl
      rw [hscan]
      exact iff_of_true rfl (by omega)

/-- C10, witness: with a callback returning 601 bytes both the read arm
and the write-response path panic, and indeed 600 < 601. -/
theorem c10_copy_panics_iff_oversize_witness :
    (profile_read_evt bigRspProfile appReadEvt = none
      ↔ 600 < (List.replicate 601 1 : Bytes).length) ∧
    (profile_write_evt bigRspProfile bigRspWrite = none
      ↔ 600 < (List.replicate 601 1 : Bytes).length) :=
  c10_copy_panics_iff_oversize bigRspProfile appReadEvt bigRspWrite [] [] bigRspChar
    (List.replicate 601 1)
    (by set_option maxRecDepth 100000 in decide)
    (by decide) (by decide) (by decide) (by decide) (by decide)
    (by set_option maxRecDepth 100000 in decide)

/-- Binding a handle to the first descriptor with UUID `u` leaves the
`(uuid, handle)` pairs of all descriptors with other UUIDs unchanged. -/
theorem setFirstDescrHandle_pairs (u h : Nat) (ds ds2 : List Descriptor)
    (heq : setFirstDescrHandle u h ds = some ds2) :
    descrPairsOther u (ds2.map (fun d => (d.uuid, d.attribute_handle)))
      = descrPairsOther u (ds.map (fun d => (d.uuid, d.attribute_handle))) := by
  induction ds generalizing ds2 with
  | nil => cases heq
  | cons d rest ih =>
    unfold setFirstDescrHandle at heq
    by_cases hd : d.uuid = u
    · rw [if_pos hd] at heq
      obtain rfl : _ = ds2 := Option.some.inj heq
      unfold descrPairsOther
      simp [List.filter_cons, hd]
    · rw [if_neg hd] at heq
      cases hrec : setFirstDescrHandle u h rest with
      | none => rw [hrec] at heq; cases heq
      | some rest2 =>
        rw [hrec] at heq
        obtain rfl : d :: rest2 = ds2 := Option.some.inj heq
        have htail := ih rest2 hrec
        unfold descrPairsOther at htail ⊢
        have hb : ((d.uuid, d.attribute_handle).1 != u) = true := by
          simp [hd]
        rw [List.map_cons, List.map_cons, List.filter_cons, List.filter_cons, hb]
        simp only [if_true]
        rw [htail]

/-- The same preservation, lifted over the characteristic list of a
service. -/
theorem setFirstDescrInChars_pairs (u h : Nat) (cs cs2 : List Characteristic)
    (heq : setFirstDescrInChars u h cs = some cs2) :
    descrPairsOther u (cs2.flatMap charPairs) = descrPairsOther u (cs.flatMap charPairs) := by
  induction cs generalizing cs2 with
  | nil => cases heq
  | cons c rest ih =>
    unfold setFirstDescrInChars at heq
    cases hd : setFirstDescrHandle u h c.descriptors with
    | some ds =>
      rw [hd] at heq
      obtain rfl : _ = cs2 := Option.some.inj heq
      have h1 := setFirstDescrHandle_pairs u h c.descriptors ds hd
      unfold descrPairsOther at h1 ⊢
      rw [List.flatMap_cons, List.flatMap_cons, List.filter_append, List.filter_append]
      simp only [charPairs] at h1 ⊢
      rw [h1]
    | none =>
      rw [hd] at heq
      cases hrec : setFirstDescrInChars u h rest with
      | none => rw [hrec] at heq; cases heq
      | some rest2 =>
        rw [hrec] at heq
        obtain rfl : c :: rest2 = cs2 := Option.some.inj heq
        have h2 := ih rest2 hrec
        unfold descrPairsOther at h2 ⊢
        rw [List.flatMap_cons, List.flatMap_cons, List.filter_append, List.filter_append, h2]

/-- The same preservation, lifted over the service list of a profile. -/
theorem addDescrServices_pairs (p : AddCharDescrParam) (ss ss2 : List Service)
    (acts : List Action) (heq : addDescrServices p ss = some (ss2, acts)) :
    descrPairsOther p.descr_uuid (ss2.flatMap servicePairs)
      = descrPairsOther p.descr_uuid (ss.flatMap servicePairs) := by
  induction ss generalizing ss2 acts with
  | nil => cases heq; rfl
  | cons s rest ih =>
    unfold addDescrServices at heq
    by_cases hs : s.handle = some p.service_handle
    · rw [if_pos hs] at heq
      cases hm : setFirstDescrInChars p.descr_uuid p.attr_handle s.characteristics with
      | none => rw [hm] at heq; cases heq
      | some chars2 =>
        rw [hm] at heq
        simp only [] at heq
        by_cases hst : p.status = ESP_GATT_OK
        · rw [if_pos hst] at heq
          cases heq
          have h1 := setFirstDescrInChars_pairs p.descr_uuid p.attr_handle
            s.characteristics chars2 hm
          unfold descrPairsOther at h1 ⊢
          rw [List.flatMap_cons, List.flatMap_cons, List.filter_append, List.filter_append]
          simp only [servicePairs] at h1 ⊢
          rw [h1]
        · rw [if_neg hst] at heq
          cases heq
          rfl
    · rw [if_neg hs] at heq
      cases hrec : addDescrServices p rest with
      | none => rw [hrec] at heq; cases heq
      | some r =>
        obtain ⟨rest2, acts2⟩ := r
        rw [hrec] at heq
        simp only [Option.map_some'] at heq
        cases heq
        have h2 := ih _ _ hrec
        unfold descrPairsOther at h2 ⊢
        rw [List.flatMap_cons, List.flatMap_cons, List.filter_append, List.filter_append, h2]

/-- C4, amended: the add-descriptor-complete arm looks the descriptor up
by UUID within the service located via the event's service handle,
flattened across all characteristics, and binds the stack handle to the
first descriptor carrying that UUID; the handles of all descriptors with
a different UUID are never changed.  Identical descriptor UUIDs within
one service (such as the 0x2902 CCCDs of two notify characteristics) are
not disambiguated by parent characteristic, so a later event with the
same UUID rebinds the first matching descriptor and overwrites its
previously assigned handle. -/
theorem c4_add_descr_preserves_other_uuids (prof prof2 : Profile) (p : AddCharDescrParam)
    (acts : List Action)
    (heq : profile_add_char_descr_evt prof p = some (prof2, acts)) :
    descrPairsOther p.descr_uuid (profileDescrPairs prof2)
      = descrPairsOther p.descr_uuid (profileDescrPairs prof) := by
  unfold profile_add_char_descr_evt at heq
  cases hr : addDescrServices p prof.services with
  | none => rw [hr] at heq; cases heq
  | some r =>
    obtain ⟨ss2, acts2⟩ := r
    rw [hr] at heq
    simp only [Option.map_some'] at heq
    cases heq
    unfold profileDescrPairs
    exact addDescrServices_pairs p prof.services _ _ hr

/-- C4, amended, witness: the first add-descriptor event on
`twoCccdProfile` leaves the pairs of all non-0x2902 descriptors (none
here, so both sides are empty) unchanged. -/
theorem c4_add_descr_preserves_other_uuids_witness :
    descrPairsOther addDescrEvt1.descr_uuid (profileDescrPairs twoCccdProfileAfter1)
      = descrPairsOther addDescrEvt1.descr_uuid (profileDescrPairs twoCccdProfile) :=
  c4_add_descr_preserves_other_uuids twoCccdProfile twoCccdProfileAfter1 addDescrEvt1
    [Action.logInfo] (by decide)

/-- After the advertisement-configured flag is set, a registration event
preserves the flag and performs no advertisement configuration. -/
theorem server_reg_evt_configured (st : ServerState) (gatts_if : Nat) (p : RegParam)
    (hcfg : st.advertisement_configured = true) (st2 : ServerState) (acts : List Action)
    (heq : server_reg_evt st gatts_if p = some (st2, acts)) :
    st2.advertisement_configured = true ∧
    acts.count Action.setDeviceName = 0 ∧ acts.count Action.configAdvData = 0 := by
  unfold server_reg_evt at heq
  by_cases hst : p.status = ESP_GATT_OK
  · rw [if_pos hst] at heq
    cases hsp : setProfileInterface p.app_id gatts_if st.profiles with
    | none => rw [hsp] at heq; cases heq
    | some ps =>
      rw [hsp] at heq
      simp only [] at heq
      rw [if_neg (by simp [hcfg])] at heq
      cases heq
      exact ⟨hcfg, by decide, by decide⟩
  · rw [if_neg hst] at heq
    cases heq
    exact ⟨hcfg, by decide, by decide⟩

/-- After the flag is set, a whole sequence of registration events
performs no advertisement configuration. -/
theorem runRegEvents_configured (evts : List (Nat × RegParam)) (st : ServerState)
    (hcfg : st.advertisement_configured = true) (st2 : ServerState) (acts : List Action)
    (hrun : runRegEvents st evts = some (st2, acts)) :
    acts.count Action.setDeviceName = 0 ∧ acts.count Action.configAdvData = 0 := by
  induction evts generalizing st st2 acts with
  | nil => cases hrun; exact ⟨rfl, rfl⟩
  | cons e rest ih =>
    unfold runRegEvents at hrun
    cases h1 : server_reg_evt st e.1 e.2 with
    | none => rw [h1] at hrun; cases hrun
    | some r =>
      obtain ⟨stA, actsA⟩ := r
      rw [h1] at hrun
      simp only [] at hrun
      obtain ⟨hflag, hc1, hc2⟩ := server_reg_evt_configured st e.1 e.2 hcfg stA actsA h1
      cases h2 : runRegEvents stA rest with
      | none => rw [h2] at hrun; cases hrun
      | some r2 =>
        obtain ⟨stB, actsB⟩ := r2
        rw [h2] at hrun
        simp only [] at hrun
        cases hrun
        obtain ⟨hd1, hd2⟩ := ih stA hflag _ _ h2
        constructor <;> rw [List.count_append] <;> omega

/-- C9: across a non-empty sequence of successful registration events
starting from a state where the advertisement is not yet configured, the
device name is set exactly once, the advertisement and scan-response
payloads are configured exactly once (two `esp_ble_gap_config_adv_data`
calls), and all of it happens on the first event of the sequence. -/
theorem c9_advertisement_configured_once (st : ServerState) (e : Nat × RegParam)
    (evts : List (Nat × RegParam)) (st2 : ServerState) (acts : List Action)
    (hcfg : st.advertisement_configured = false)
    (hok : ∀ ev ∈ e :: evts, ev.2.status = ESP_GATT_OK)
    (hrun : runRegEvents st (e :: evts) = some (st2, acts)) :
    acts.count Action.setDeviceName = 1 ∧ acts.count Action.configAdvData = 2 ∧
    acts.take 4 = [Action.logDebug, Action.setDeviceName, Action.configAdvData,
      Action.configAdvData] := by
  have he : e.2.status = ESP_GATT_OK := hok e (List.mem_cons_self e evts)
  unfold runRegEvents at hrun
  unfold server_reg_evt at hrun
  rw [if_pos he] at hrun
  cases hsp : setProfileInterface e.2.app_id e.1 st.profiles with
  | none => rw [hsp] at hrun; cases hrun
  | some ps =>
    rw [hsp] at hrun
    simp only [] at hrun
    rw [if_pos hcfg] at hrun
    simp only [] at hrun
    cases h2 : runRegEvents { st with profiles := ps, advertisement_configured := true } evts with
    | none => rw [h2] at hrun; cases hrun
    | some r2 =>
      obtain ⟨stB, actsB⟩ := r2
      rw [h2] at hrun
      simp only [] at hrun
      cases hrun
      obtain ⟨hd1, hd2⟩ := runRegEvents_configured evts
        { st with profiles := ps, advertisement_configured := true } rfl _ _ h2
      refine ⟨?_, ?_, ?_⟩
      · rw [List.count_append, hd1]
        decide
      · rw [List.count_append, hd2]
        decide
      · exact List.take_left' rfl

/-- C9, witness: starting unconfigured, two successful registrations on
interfaces 5 and 6 set the device name once and configure the
advertisement payloads once, on the first event. -/
theorem c9_advertisement_configured_once_witness :
    regActs.count Action.setDeviceName = 1 ∧ regActs.count Action.configAdvData = 2 ∧
    regActs.take 4 = [Action.logDebug, Action.setDeviceName, Action.configAdvData,
      Action.configAdvData] :=
  c9_advertisement_configured_once regState0 regEvt1 [regEvt2] regFinal regActs rfl
    (by decide) (by decide)

end Bluedroid
